import Mathlib

/-!
Shallow embedding of `tap_paypal/sync.py` (singer-tap-paypal).

The module under `src/` contains the stream driver `sync` and the record
handler `sync_record`.  Their collaborators — `tools.get_stream_state`,
`tools.retrieve_bookmark_with_path`, `tools.clear_currently_syncing`, the
static `STREAMS` registry from `tap_paypal.streams`, the singer output
channel (`write_schema`, `write_record`, `write_bookmark`, `write_state`,
`set_currently_syncing`) and `Catalog.get_selected_streams` — are not part
of `src/`; they are modelled from the specification (sections 3, 4 and 6).

Side effects are made explicit: every call into the singer output channel
is recorded as an `OutputEvent` in an emitted trace, state mutation is
explicit state passing, and an uncaught Python exception is an explicit
`SyncError` value together with the partial trace emitted before it was
raised.  Wall-clock time (`datetime.now(timezone.utc)`) is modelled as a
monotone tick counter threaded through the driver; each record emission
reads and advances it.
-/

/-- A JSON-like value, the shape of rows, bookmark values and schemas. -/
inductive Value where
  | null : Value
  | bool : Bool → Value
  | num : Int → Value
  | str : String → Value
  | obj : List (String × Value) → Value

/-- Python truthiness of a `Value`, as tested by `if bookmark:` in
`sync_record`. -/
def pyTruthy : Value → Bool
  | .null => false
  | .bool b => b
  | .num n => n != 0
  | .str s => s != ""
  | .obj kvs => !kvs.isEmpty

/-- Lookup in an association list (a Python `dict` read `d[k]` / `d.get(k)`). -/
def alookup {α : Type} (k : String) : List (String × α) → Option α
  | [] => none
  | (k2, v) :: t => if k2 = k then some v else alookup k t

/-- Update of an association list (a Python `dict` write `d[k] = v`;
insertion order of existing keys is preserved, new keys are appended). -/
def aset {α : Type} (k : String) (v : α) : List (String × α) → List (String × α)
  | [] => [(k, v)]
  | (k2, w) :: t => if k2 = k then (k, v) :: t else (k2, w) :: aset k v t

/-- The singer tap state: per-stream bookmark mappings plus the
currently-syncing marker (spec section 3, "State"). -/
structure TapState where
  bookmarks : List (String × List (String × Value))
  currently_syncing : Option String

/-- Read the bookmark value stored in the state under a stream identifier
and a bookmark field name. -/
def stateBookmark (st : TapState) (sid field : String) : Option Value :=
  (alookup sid st.bookmarks).bind (alookup field)

/-- Modelled from the spec: `singer.write_bookmark` (section 6, output
channel) records a bookmark value in the state under the stream identifier
and the bookmark field name, overwriting any prior value. -/
def write_bookmark (st : TapState) (sid field : String) (v : Value) : TapState :=
  ⟨aset sid (aset field v ((alookup sid st.bookmarks).getD [])) st.bookmarks,
   st.currently_syncing⟩

/-- Modelled from the spec: `singer.set_currently_syncing` (section 6)
marks a stream as the one presently being processed. -/
def set_currently_syncing (st : TapState) (sid : String) : TapState :=
  ⟨st.bookmarks, some sid⟩

/-- Modelled from the spec: `tools.clear_currently_syncing` (sections 4.2
and 6) removes the currently-syncing marker from the state. -/
def clear_currently_syncing (st : TapState) : TapState :=
  ⟨st.bookmarks, none⟩

/-- Follow a field path into a nested row value; `none` when any step of
the path is missing or the value there is not an object. -/
def followPath : List String → Value → Option Value
  | [], v => some v
  | k :: rest, .obj kvs =>
    match alookup k kvs with
    | some v => followPath rest v
    | none => none
  | _ :: _, _ => none

/-- Modelled from the spec: `tools.retrieve_bookmark_with_path`
(section 4.2 step 1) extracts the bookmark value from a row by following
the stream's replication-key field path; the path may be nested and may be
absent, and extraction returns an optional value, never raising on a
missing path. -/
def retrieve_bookmark_with_path : Option (List String) → Value → Option Value
  | none, _ => none
  | some p, row => followPath p row

/-- Modelled from the spec: `tools.get_stream_state` (sections 4.1 step 2
and 6) merges the global state, the start date and the stream identifier
into the keyword arguments for the fetch call: the stream's bookmark
mapping when the state already holds one, otherwise the configured start
date. -/
def get_stream_state (st : TapState) (start_date : String) (sid : String) :
    List (String × Value) :=
  match alookup sid st.bookmarks with
  | some bm => if bm.isEmpty then [("start_date", .str start_date)] else bm
  | none => [("start_date", .str start_date)]

/-- Per-stream metadata held by the stream registry. -/
structure StreamMeta where
  bookmark : String

/-- The static stream registry type: stream identifier to metadata
(spec section 3, "Stream registry").  The registry `tap_paypal.streams.STREAMS`
is not under `src/`, so the driver and handler take the registry as an
explicit parameter. -/
abbrev StreamRegistry := List (String × StreamMeta)

/-- Modelled from the spec: the one entry of the `STREAMS` registry the
specification names (section 8 scenario): stream `paypal_transactions`
with bookmark field `date_modified`. -/
def STREAMS : StreamRegistry := [("paypal_transactions", ⟨"date_modified"⟩)]

/-- A catalog entry: stream identifier, schema body, key properties,
replication-key field path and the selected flag. -/
structure CatalogEntry where
  tap_stream_id : String
  schema : Value
  key_properties : List String
  replication_key : Option (List String)
  selected : Bool

/-- A stream catalog. -/
structure Catalog where
  streams : List CatalogEntry

/-- Modelled from the spec: `Catalog.get_selected_streams` (section 6)
exposes the selected streams of the catalog, in catalog order. -/
def Catalog.get_selected_streams (c : Catalog) (_state : TapState) :
    List CatalogEntry :=
  c.streams.filter (fun s => s.selected)

/-- The API client: one row-producing method per registered stream
identifier, accepting the catch-up window, the schemaless flag and the
resolved per-stream state (spec section 6, "API client").  `getattr`
lookup is association-list lookup on `methods`. -/
structure PayPal where
  methods : List (String × (Int → Bool → List (String × Value) → List Value))

/-- One side-effecting call into the singer output channel
(spec section 6, "Output channel").  A `state_flush` carries the snapshot
of the full state passed to `singer.write_state`. -/
inductive OutputEvent where
  | schema (stream_name : String) (schema : Value) (key_properties : List String)
  | record (stream_id : String) (row : Value) (time_extracted : Nat)
  | bookmark (stream_id : String) (field : String) (value : Value)
  | state_flush (state : TapState)

/-- An uncaught Python exception aborting the run: `AttributeError` from
the `getattr` fetch-method lookup, `KeyError` from the `STREAMS[...]`
registry lookup. -/
inductive SyncError where
  | attributeError (name : String)
  | keyError (key : String)

/-- Result of handling one record: the state after the call, the output
events emitted during it, and the uncaught exception if one was raised. -/
structure RecordResult where
  state : TapState
  events : List OutputEvent
  error : Option SyncError

/-- Result of a driver run: final state, emitted trace, uncaught
exception if any, and the clock after the run. -/
structure SyncResult where
  state : TapState
  events : List OutputEvent
  error : Option SyncError
  clock : Nat

/-- Embedding of `sync_record` (sync.py lines 74-108): retrieve the
bookmark by path, write the record tagged with the current time, and — if
the bookmark is truthy — write the bookmark under the registry-declared
field (a missing registry key raises `KeyError` before the state is
touched), clear the currently-syncing marker, and write the state. -/
def sync_record (streams : StreamRegistry) (stream : CatalogEntry)
    (row : Value) (now : Nat) (state : TapState) : RecordResult :=
  let bookmark := retrieve_bookmark_with_path stream.replication_key row
  let recEv := OutputEvent.record stream.tap_stream_id row now
  match bookmark with
  | some v =>
    if pyTruthy v then
      match alookup stream.tap_stream_id streams with
      | none => ⟨state, [recEv], some (.keyError stream.tap_stream_id)⟩
      | some meta =>
        let st1 := write_bookmark state stream.tap_stream_id meta.bookmark v
        let st2 := clear_currently_syncing st1
        ⟨st2, [recEv, .bookmark stream.tap_stream_id meta.bookmark v,
               .state_flush st2], none⟩
    else ⟨state, [recEv], none⟩
  | none => ⟨state, [recEv], none⟩

/-- Whether a row yields a truthy bookmark for a stream, i.e. whether
`sync_record` takes its state-mutating branch on this row. -/
def rowHasBookmark (stream : CatalogEntry) (row : Value) : Bool :=
  match retrieve_bookmark_with_path stream.replication_key row with
  | some v => pyTruthy v
  | none => false

/-- The inner loop of `sync` (sync.py lines 70-71): each fetched row is
handled by `sync_record` before the next one; an uncaught exception stops
the iteration with the trace emitted so far.  The clock advances by one
tick per record emission. -/
def syncRows (streams : StreamRegistry) (stream : CatalogEntry) :
    List Value → TapState → Nat → SyncResult
  | [], st, clk => ⟨st, [], none, clk⟩
  | row :: rest, st, clk =>
    let r := sync_record streams stream row clk st
    match r.error with
    | some e => ⟨r.state, r.events, some e, clk + 1⟩
    | none =>
      let k := syncRows streams stream rest r.state (clk + 1)
      ⟨k.state, r.events ++ k.events, k.error, k.clock⟩

/-- The per-stream loop of `sync` (sync.py lines 40-71): for each selected
stream in order, mark it currently syncing, resolve its per-stream state,
write its schema, look up the fetch method on the client (`getattr`; a
missing method raises `AttributeError` after the schema was written), call
it with the catch-up window, the schemaless flag and the resolved state,
and handle every yielded row; an uncaught exception aborts the whole run. -/
def syncStreams (paypal : PayPal) (streams : StreamRegistry)
    (start_date : String) (catchup_days : Int) (schemaless : Bool) :
    List CatalogEntry → TapState → Nat → SyncResult
  | [], st, clk => ⟨st, [], none, clk⟩
  | c :: rest, st, clk =>
    let st1 := set_currently_syncing st c.tap_stream_id
    let stream_state := get_stream_state st1 start_date c.tap_stream_id
    let schemaEv := OutputEvent.schema c.tap_stream_id c.schema c.key_properties
    match alookup c.tap_stream_id paypal.methods with
    | none => ⟨st1, [schemaEv], some (.attributeError c.tap_stream_id), clk⟩
    | some f =>
      let rows := f catchup_days schemaless stream_state
      let r := syncRows streams c rows st1 clk
      match r.error with
      | some e => ⟨r.state, schemaEv :: r.events, some e, r.clock⟩
      | none =>
        let k := syncStreams paypal streams start_date catchup_days schemaless
          rest r.state r.clock
        ⟨k.state, schemaEv :: r.events ++ k.events, k.error, k.clock⟩

/-- Embedding of `sync` (sync.py lines 17-71): run the per-stream loop
over the catalog's selected streams. -/
def sync (paypal : PayPal) (state : TapState) (catalog : Catalog)
    (start_date : String) (catchup_days : Int) (schemaless : Bool)
    (streams : StreamRegistry) (clk : Nat) : SyncResult :=
  syncStreams paypal streams start_date catchup_days schemaless
    (catalog.get_selected_streams state) state clk

/-- Whether an event is a record emission. -/
def isRecordEv : OutputEvent → Bool
  | .record _ _ _ => true
  | _ => false

/-- Whether an event is a bookmark write. -/
def isBookmarkEv : OutputEvent → Bool
  | .bookmark _ _ _ => true
  | _ => false

/-- Whether an event is a schema emission. -/
def isSchemaEv : OutputEvent → Bool
  | .schema _ _ _ => true
  | _ => false

/-- Whether an event is the schema emission of the given stream. -/
def isSchemaOf (sid : String) : OutputEvent → Bool
  | .schema s _ _ => s == sid
  | _ => false

/-- Whether an event is a record emission of the given stream. -/
def isRecordOf (sid : String) : OutputEvent → Bool
  | .record s _ _ => s == sid
  | _ => false

/-! Basic facts about association lists. -/

theorem alookup_aset_self {α : Type} (k : String) (v : α)
    (l : List (String × α)) : alookup k (aset k v l) = some v := by
  induction l with
  | nil => simp [aset, alookup]
  | cons h t ih =>
    obtain ⟨k2, w⟩ := h
    by_cases hk : k2 = k
    · simp [aset, alookup, hk]
    · simp [aset, alookup, hk, ih]

/-! Concrete fixtures used to instantiate theorems, drawn from the spec's
section 8 scenario. -/

/-- The `paypal_transactions` catalog entry of the spec scenario. -/
def txStream : CatalogEntry :=
  ⟨"paypal_transactions", Value.obj [], ["transaction_id"],
   some ["date_modified"], true⟩

/-- A row whose `date_modified` is 2020-01-02. -/
def rowJan2 : Value := .obj [("date_modified", .str "2020-01-02T00:00:00Z")]

/-- A row whose `date_modified` is 2020-01-03. -/
def rowJan3 : Value := .obj [("date_modified", .str "2020-01-03T00:00:00Z")]

/-- A row with no replication-key field. -/
def rowNoKey : Value := .obj [("transaction_id", .str "t1")]

/-- A row whose replication-key path resolves to a falsy value. -/
def rowEmptyBm : Value := .obj [("date_modified", .str "")]

/-- The empty tap state. -/
def emptyState : TapState := ⟨[], none⟩

/-- C1: for a row whose replication-key path resolves to a (truthy)
bookmark value and whose stream is in the registry, `sync_record` leaves
the state mapping the stream identifier and the registry-declared bookmark
field to the extracted value, clears the currently-syncing marker, and its
trace is the record emission first, then the bookmark write, then the
`write_state` flush of the final state — and it raises nothing. -/
theorem sync_record_bookmark_commit (streams : StreamRegistry)
    (stream : CatalogEntry) (row : Value) (now : Nat) (state : TapState)
    (v : Value) (meta : StreamMeta)
    (hb : retrieve_bookmark_with_path stream.replication_key row = some v)
    (ht : pyTruthy v = true)
    (hr : alookup stream.tap_stream_id streams = some meta) :
    (sync_record streams stream row now state).error = none ∧
    stateBookmark (sync_record streams stream row now state).state
      stream.tap_stream_id meta.bookmark = some v ∧
    (sync_record streams stream row now state).state.currently_syncing = none ∧
    (sync_record streams stream row now state).events =
      [.record stream.tap_stream_id row now,
       .bookmark stream.tap_stream_id meta.bookmark v,
       .state_flush (sync_record streams stream row now state).state] := by
  simp [sync_record, hb, ht, hr, stateBookmark, write_bookmark,
    clear_currently_syncing, alookup_aset_self]

/-- Instance of `sync_record_bookmark_commit` at the spec scenario's
stream and first row. -/
theorem sync_record_bookmark_commit_witness :
    retrieve_bookmark_with_path txStream.replication_key rowJan2 =
      some (.str "2020-01-02T00:00:00Z") ∧
    pyTruthy (.str "2020-01-02T00:00:00Z") = true ∧
    alookup txStream.tap_stream_id STREAMS = some ⟨"date_modified"⟩ ∧
    stateBookmark (sync_record STREAMS txStream rowJan2 0 emptyState).state
      "paypal_transactions" "date_modified" =
      some (.str "2020-01-02T00:00:00Z") ∧
    (sync_record STREAMS txStream rowJan2 0 emptyState).state.currently_syncing =
      none :=
  ⟨rfl, rfl, rfl,
   (sync_record_bookmark_commit STREAMS txStream rowJan2 0 emptyState
      (.str "2020-01-02T00:00:00Z") ⟨"date_modified"⟩ rfl rfl rfl).2.1,
   (sync_record_bookmark_commit STREAMS txStream rowJan2 0 emptyState
      (.str "2020-01-02T00:00:00Z") ⟨"date_modified"⟩ rfl rfl rfl).2.2.1⟩

/-- C3: every row handled by `sync_record` is emitted first, as a record
tagged with the clock value at emission time; and when the bookmark path
does not resolve, the state is returned unchanged, the trace is the record
emission alone (no bookmark write, no flush), and nothing is raised. -/
theorem sync_record_emit_and_frame (streams : StreamRegistry)
    (stream : CatalogEntry) (row : Value) (now : Nat) (state : TapState) :
    (sync_record streams stream row now state).events.head? =
      some (.record stream.tap_stream_id row now) ∧
    (retrieve_bookmark_with_path stream.replication_key row = none →
      sync_record streams stream row now state =
        ⟨state, [.record stream.tap_stream_id row now], none⟩) := by
  constructor
  · cases hb : retrieve_bookmark_with_path stream.replication_key row with
    | none => simp [sync_record, hb]
    | some v =>
      cases hpt : pyTruthy v with
      | false => simp [sync_record, hb, hpt]
      | true =>
        cases hreg : alookup stream.tap_stream_id streams with
        | none => simp [sync_record, hb, hpt, hreg]
        | some meta => simp [sync_record, hb, hpt, hreg]
  · intro h
    simp [sync_record, h]

/-- Instance of `sync_record_emit_and_frame` at a row without the
replication-key field. -/
theorem sync_record_emit_and_frame_witness :
    retrieve_bookmark_with_path txStream.replication_key rowNoKey = none ∧
    sync_record STREAMS txStream rowNoKey 7 emptyState =
      ⟨emptyState, [.record "paypal_transactions" rowNoKey 7], none⟩ :=
  ⟨rfl, (sync_record_emit_and_frame STREAMS txStream rowNoKey 7 emptyState).2 rfl⟩

/-- C8: a row whose replication-key path resolves to a falsy value (empty
string, zero, null, …) is handled exactly like the no-bookmark case: the
row is emitted, the state is unchanged, no bookmark is written, the marker
is not cleared and no flush happens — the test is Python truthiness. -/
theorem sync_record_falsy_bookmark (streams : StreamRegistry)
    (stream : CatalogEntry) (row : Value) (now : Nat) (state : TapState)
    (v : Value)
    (hb : retrieve_bookmark_with_path stream.replication_key row = some v)
    (hf : pyTruthy v = false) :
    sync_record streams stream row now state =
      ⟨state, [.record stream.tap_stream_id row now], none⟩ := by
  simp [sync_record, hb, hf]

/-- Instance of `sync_record_falsy_bookmark` at a row whose
`date_modified` is the empty string. -/
theorem sync_record_falsy_bookmark_witness :
    retrieve_bookmark_with_path txStream.replication_key rowEmptyBm =
      some (.str "") ∧
    pyTruthy (.str "") = false ∧
    sync_record STREAMS txStream rowEmptyBm 3 emptyState =
      ⟨emptyState, [.record "paypal_transactions" rowEmptyBm 3], none⟩ :=
  ⟨rfl, rfl,
   sync_record_falsy_bookmark STREAMS txStream rowEmptyBm 3 emptyState
     (.str "") rfl rfl⟩

/-- C10: a row with a truthy bookmark for a stream identifier absent from
the registry makes `sync_record` raise `KeyError` after the record was
already emitted, with the state untouched: no bookmark write, no marker
clearing, no flush. -/
theorem sync_record_unregistered_keyerror (streams : StreamRegistry)
    (stream : CatalogEntry) (row : Value) (now : Nat) (state : TapState)
    (v : Value)
    (hb : retrieve_bookmark_with_path stream.replication_key row = some v)
    (ht : pyTruthy v = true)
    (hr : alookup stream.tap_stream_id streams = none) :
    sync_record streams stream row now state =
      ⟨state, [.record stream.tap_stream_id row now],
       some (.keyError stream.tap_stream_id)⟩ := by
  simp [sync_record, hb, ht, hr]

/-- A catalog entry whose stream identifier is not a registry key. -/
def unknownStream : CatalogEntry :=
  ⟨"paypal_unknown", Value.obj [], [], some ["date_modified"], true⟩

/-- Instance of `sync_record_unregistered_keyerror` at a stream absent
from the registry. -/
theorem sync_record_unregistered_keyerror_witness :
    retrieve_bookmark_with_path unknownStream.replication_key rowJan2 =
      some (.str "2020-01-02T00:00:00Z") ∧
    pyTruthy (.str "2020-01-02T00:00:00Z") = true ∧
    alookup unknownStream.tap_stream_id STREAMS = none ∧
    sync_record STREAMS unknownStream rowJan2 0 emptyState =
      ⟨emptyState, [.record "paypal_unknown" rowJan2 0],
       some (.keyError "paypal_unknown")⟩ :=
  ⟨rfl, rfl, rfl,
   sync_record_unregistered_keyerror STREAMS unknownStream rowJan2 0
     emptyState (.str "2020-01-02T00:00:00Z") rfl rfl rfl⟩

/-- C2: the marker set at the start of a stream's processing names that
stream; handling a bookmarked row clears the marker (with the flush
carrying the cleared state); and the row loop then continues with the
remaining rows from that cleared state, so mid-stream the marker reads as
not-syncing while rows of the stream are still being iterated. -/
theorem currently_syncing_marker_quirk (streams : StreamRegistry)
    (stream : CatalogEntry) (row : Value) (rest : List Value)
    (st : TapState) (clk : Nat) (v : Value) (meta : StreamMeta)
    (hb : retrieve_bookmark_with_path stream.replication_key row = some v)
    (ht : pyTruthy v = true)
    (hr : alookup stream.tap_stream_id streams = some meta) :
    (set_currently_syncing st stream.tap_stream_id).currently_syncing =
      some stream.tap_stream_id ∧
    (sync_record streams stream row clk st).state.currently_syncing = none ∧
    syncRows streams stream (row :: rest) st clk =
      ⟨(syncRows streams stream rest
          (sync_record streams stream row clk st).state (clk + 1)).state,
       (sync_record streams stream row clk st).events ++
         (syncRows streams stream rest
           (sync_record streams stream row clk st).state (clk + 1)).events,
       (syncRows streams stream rest
         (sync_record streams stream row clk st).state (clk + 1)).error,
       (syncRows streams stream rest
         (sync_record streams stream row clk st).state (clk + 1)).clock⟩ := by
  have herr : (sync_record streams stream row clk st).error = none := by
    simp [sync_record, hb, ht, hr]
  refine ⟨rfl, ?_, ?_⟩
  · simp [sync_record, hb, ht, hr, clear_currently_syncing, write_bookmark]
  · simp only [syncRows]
    rw [herr]

/-- Instance of `currently_syncing_marker_quirk` at the spec scenario:
after the first of two rows, the marker is already cleared. -/
theorem currently_syncing_marker_quirk_witness :
    retrieve_bookmark_with_path txStream.replication_key rowJan2 =
      some (.str "2020-01-02T00:00:00Z") ∧
    (set_currently_syncing emptyState "paypal_transactions").currently_syncing =
      some "paypal_transactions" ∧
    (sync_record STREAMS txStream rowJan2 0 emptyState).state.currently_syncing =
      none :=
  ⟨rfl,
   (currently_syncing_marker_quirk STREAMS txStream rowJan2 [rowJan3]
      emptyState 0 (.str "2020-01-02T00:00:00Z") ⟨"date_modified"⟩
      rfl rfl rfl).1,
   (currently_syncing_marker_quirk STREAMS txStream rowJan2 [rowJan3]
      emptyState 0 (.str "2020-01-02T00:00:00Z") ⟨"date_modified"⟩
      rfl rfl rfl).2.1⟩

/-- C5: a selected stream whose identifier has no fetch method on the
client aborts the whole run with an uncaught `AttributeError`: no record
of any stream is emitted, and the result does not depend on the streams
that follow in the catalog — they are never processed. -/
theorem sync_unregistered_fetch_aborts (paypal : PayPal)
    (streams : StreamRegistry) (start_date : String) (catchup_days : Int)
    (schemaless : Bool) (c : CatalogEntry) (rest rest2 : List CatalogEntry)
    (st : TapState) (clk : Nat)
    (h : alookup c.tap_stream_id paypal.methods = none) :
    (syncStreams paypal streams start_date catchup_days schemaless
        (c :: rest) st clk).error = some (.attributeError c.tap_stream_id) ∧
    (∀ e ∈ (syncStreams paypal streams start_date catchup_days schemaless
        (c :: rest) st clk).events, isRecordEv e = false) ∧
    syncStreams paypal streams start_date catchup_days schemaless
        (c :: rest) st clk =
      syncStreams paypal streams start_date catchup_days schemaless
        (c :: rest2) st clk := by
  have key : ∀ r : List CatalogEntry,
      syncStreams paypal streams start_date catchup_days schemaless
        (c :: r) st clk =
      ⟨set_currently_syncing st c.tap_stream_id,
       [.schema c.tap_stream_id c.schema c.key_properties],
       some (.attributeError c.tap_stream_id), clk⟩ := by
    intro r
    simp only [syncStreams]
    rw [h]
  refine ⟨by rw [key], ?_, by rw [key rest, key rest2]⟩
  rw [key]
  intro e he
  simp only [List.mem_singleton] at he
  subst he
  rfl

/-- A client exposing no fetch methods at all. -/
def emptyClient : PayPal := ⟨[]⟩

/-- Instance of `sync_unregistered_fetch_aborts` at a client without the
`paypal_transactions` method. -/
theorem sync_unregistered_fetch_aborts_witness :
    alookup txStream.tap_stream_id emptyClient.methods = none ∧
    (syncStreams emptyClient STREAMS "2020-01-01T00:00:00Z" 0 false
        [txStream] emptyState 0).error =
      some (.attributeError "paypal_transactions") :=
  ⟨rfl,
   (sync_unregistered_fetch_aborts emptyClient STREAMS "2020-01-01T00:00:00Z"
      0 false txStream [] [] emptyState 0 rfl).1⟩

/-- C9: when the fetch-method lookup fails for a selected stream, the
failure happens only after the stream was marked currently-syncing (the
result state still carries the marker) and after its schema was emitted —
those two effects occur even though no row was fetched or emitted. -/
theorem sync_lookup_failure_after_mark_and_schema (paypal : PayPal)
    (streams : StreamRegistry) (start_date : String) (catchup_days : Int)
    (schemaless : Bool) (c : CatalogEntry) (rest : List CatalogEntry)
    (st : TapState) (clk : Nat)
    (h : alookup c.tap_stream_id paypal.methods = none) :
    (syncStreams paypal streams start_date catchup_days schemaless
        (c :: rest) st clk).state.currently_syncing = some c.tap_stream_id ∧
    (syncStreams paypal streams start_date catchup_days schemaless
        (c :: rest) st clk).events =
      [.schema c.tap_stream_id c.schema c.key_properties] ∧
    (syncStreams paypal streams start_date catchup_days schemaless
        (c :: rest) st clk).error = some (.attributeError c.tap_stream_id) := by
  have key : syncStreams paypal streams start_date catchup_days schemaless
      (c :: rest) st clk =
      ⟨set_currently_syncing st c.tap_stream_id,
       [.schema c.tap_stream_id c.schema c.key_properties],
       some (.attributeError c.tap_stream_id), clk⟩ := by
    simp only [syncStreams]
    rw [h]
  rw [key]
  exact ⟨rfl, rfl, rfl⟩

/-- Instance of `sync_lookup_failure_after_mark_and_schema` at a client
without the `paypal_transactions` method. -/
theorem sync_lookup_failure_after_mark_and_schema_witness :
    alookup txStream.tap_stream_id emptyClient.methods = none ∧
    (syncStreams emptyClient STREAMS "2020-01-01T00:00:00Z" 0 false
        [txStream] emptyState 0).state.currently_syncing =
      some "paypal_transactions" ∧
    (syncStreams emptyClient STREAMS "2020-01-01T00:00:00Z" 0 false
        [txStream] emptyState 0).events =
      [.schema "paypal_transactions" (Value.obj []) ["transaction_id"]] :=
  ⟨rfl,
   (sync_lookup_failure_after_mark_and_schema emptyClient STREAMS
      "2020-01-01T00:00:00Z" 0 false txStream [] emptyState 0 rfl).1,
   (sync_lookup_failure_after_mark_and_schema emptyClient STREAMS
      "2020-01-01T00:00:00Z" 0 false txStream [] emptyState 0 rfl).2.1⟩

/-- Handling a truthy-bookmarked row of a registered stream: the explicit
value of `sync_record`. -/
theorem sync_record_eq_of_bookmarked (streams : StreamRegistry)
    (stream : CatalogEntry) (row : Value) (now : Nat) (st : TapState)
    (v : Value) (meta : StreamMeta)
    (hb : retrieve_bookmark_with_path stream.replication_key row = some v)
    (ht : pyTruthy v = true)
    (hr : alookup stream.tap_stream_id streams = some meta) :
    sync_record streams stream row now st =
      ⟨clear_currently_syncing
         (write_bookmark st stream.tap_stream_id meta.bookmark v),
       [.record stream.tap_stream_id row now,
        .bookmark stream.tap_stream_id meta.bookmark v,
        .state_flush (clear_currently_syncing
          (write_bookmark st stream.tap_stream_id meta.bookmark v))],
       none⟩ := by
  simp [sync_record, hb, ht, hr]

/-- Unfolding of `syncRows` on a row whose handling raises nothing. -/
theorem syncRows_cons_of_ok (streams : StreamRegistry)
    (stream : CatalogEntry) (row : Value) (rest : List Value)
    (st : TapState) (clk : Nat)
    (herr : (sync_record streams stream row clk st).error = none) :
    syncRows streams stream (row :: rest) st clk =
      ⟨(syncRows streams stream rest
          (sync_record streams stream row clk st).state (clk + 1)).state,
       (sync_record streams stream row clk st).events ++
         (syncRows streams stream rest
           (sync_record streams stream row clk st).state (clk + 1)).events,
       (syncRows streams stream rest
         (sync_record streams stream row clk st).state (clk + 1)).error,
       (syncRows streams stream rest
         (sync_record streams stream row clk st).state (clk + 1)).clock⟩ := by
  simp only [syncRows]
  rw [herr]

/-- A truthy `rowHasBookmark` test yields the extracted value. -/
theorem rowHasBookmark_elim (stream : CatalogEntry) (row : Value)
    (h : rowHasBookmark stream row = true) :
    ∃ v, retrieve_bookmark_with_path stream.replication_key row = some v ∧
      pyTruthy v = true := by
  unfold rowHasBookmark at h
  cases hbv : retrieve_bookmark_with_path stream.replication_key row with
  | none => rw [hbv] at h; exact absurd h (by simp)
  | some v => rw [hbv] at h; exact ⟨v, rfl, h⟩

/-- Processing a sequence of rows that all carry truthy bookmarks of a
registered stream: no exception, one record emission and one bookmark
write per row, and the state's bookmark ends at the last row's value. -/
theorem syncRows_all_bookmarked (streams : StreamRegistry)
    (stream : CatalogEntry) (meta : StreamMeta)
    (hr : alookup stream.tap_stream_id streams = some meta) :
    ∀ (rows : List Value) (st : TapState) (clk : Nat),
      (∀ r ∈ rows, rowHasBookmark stream r = true) →
      (syncRows streams stream rows st clk).error = none ∧
      (syncRows streams stream rows st clk).events.countP isRecordEv =
        rows.length ∧
      (syncRows streams stream rows st clk).events.countP isBookmarkEv =
        rows.length ∧
      ∀ lastRow, rows.getLast? = some lastRow →
        stateBookmark (syncRows streams stream rows st clk).state
          stream.tap_stream_id meta.bookmark =
        retrieve_bookmark_with_path stream.replication_key lastRow := by
  intro rows
  induction rows with
  | nil =>
    intro st clk _
    refine ⟨rfl, rfl, rfl, ?_⟩
    intro lastRow h
    simp at h
  | cons row rest ih =>
    intro st clk hall
    obtain ⟨v, hb, ht⟩ :=
      rowHasBookmark_elim stream row (hall row (List.mem_cons_self _ _))
    have hsr := sync_record_eq_of_bookmarked streams stream row clk st v meta
      hb ht hr
    have herr : (sync_record streams stream row clk st).error = none := by
      rw [hsr]
    have hall2 : ∀ r ∈ rest, rowHasBookmark stream r = true :=
      fun r hm => hall r (List.mem_cons_of_mem _ hm)
    have hk := ih ((sync_record streams stream row clk st).state) (clk + 1)
      hall2
    rw [syncRows_cons_of_ok streams stream row rest st clk herr]
    refine ⟨hk.1, ?_, ?_, ?_⟩
    · rw [List.countP_append, hk.2.1, hsr]
      simp [List.countP_cons, isRecordEv]
      omega
    · rw [List.countP_append, hk.2.2.1, hsr]
      simp [List.countP_cons, isBookmarkEv]
      omega
    · intro lastRow hlast
      cases rest with
      | nil =>
        simp only [List.getLast?_singleton, Option.some.injEq] at hlast
        subst hlast
        show stateBookmark (syncRows streams stream []
          (sync_record streams stream row clk st).state (clk + 1)).state
          stream.tap_stream_id meta.bookmark = _
        rw [show (syncRows streams stream []
          (sync_record streams stream row clk st).state (clk + 1)).state =
          (sync_record streams stream row clk st).state from rfl]
        rw [hsr, hb]
        simp [stateBookmark, clear_currently_syncing, write_bookmark,
          alookup_aset_self]
      | cons r2 t =>
        rw [List.getLast?_cons_cons] at hlast
        exact hk.2.2.2 lastRow hlast

/-- C4: bookmarks are last-write-wins over the processed row sequence:
for a nonempty sequence of rows each yielding a truthy bookmark of a
registered stream, the row loop raises nothing, emits exactly one record
and one bookmark write per row, and leaves the stream's state bookmark
equal to the value extracted from the last row. -/
theorem bookmark_last_write_wins (streams : StreamRegistry)
    (stream : CatalogEntry) (meta : StreamMeta) (front : List Value)
    (lastRow : Value) (rows : List Value) (st : TapState) (clk : Nat)
    (hr : alookup stream.tap_stream_id streams = some meta)
    (hsplit : rows = front ++ [lastRow])
    (hall : ∀ r ∈ rows, rowHasBookmark stream r = true) :
    (syncRows streams stream rows st clk).error = none ∧
    (syncRows streams stream rows st clk).events.countP isRecordEv =
      rows.length ∧
    (syncRows streams stream rows st clk).events.countP isBookmarkEv =
      rows.length ∧
    stateBookmark (syncRows streams stream rows st clk).state
      stream.tap_stream_id meta.bookmark =
    retrieve_bookmark_with_path stream.replication_key lastRow := by
  have h := syncRows_all_bookmarked streams stream meta hr rows st clk hall
  refine ⟨h.1, h.2.1, h.2.2.1, h.2.2.2 lastRow ?_⟩
  rw [hsplit]
  exact List.getLast?_concat front

/-- Instance of `bookmark_last_write_wins` at the spec's two-row
`paypal_transactions` scenario: two record emissions, two bookmark
writes, and the final bookmark is the second row's `date_modified`. -/
theorem bookmark_last_write_wins_witness :
    (∀ r ∈ [rowJan2, rowJan3], rowHasBookmark txStream r = true) ∧
    (syncRows STREAMS txStream [rowJan2, rowJan3] emptyState 0).error =
      none ∧
    (syncRows STREAMS txStream [rowJan2, rowJan3] emptyState 0).events.countP
      isRecordEv = 2 ∧
    (syncRows STREAMS txStream [rowJan2, rowJan3] emptyState 0).events.countP
      isBookmarkEv = 2 ∧
    stateBookmark (syncRows STREAMS txStream [rowJan2, rowJan3] emptyState
        0).state "paypal_transactions" "date_modified" =
      some (.str "2020-01-03T00:00:00Z") := by
  have hall : ∀ r ∈ [rowJan2, rowJan3], rowHasBookmark txStream r = true := by
    decide
  have h := bookmark_last_write_wins STREAMS txStream ⟨"date_modified"⟩
    [rowJan2] rowJan3 [rowJan2, rowJan3] emptyState 0 rfl rfl hall
  exact ⟨hall, h.1, h.2.1, h.2.2.1, h.2.2.2⟩

/-- The fetch method of the scenario client: yields the two scenario rows. -/
def txMethod : Int → Bool → List (String × Value) → List Value :=
  fun _ _ _ => [rowJan2, rowJan3]

/-- A client exposing exactly the `paypal_transactions` fetch method. -/
def txClient : PayPal := ⟨[("paypal_transactions", txMethod)]⟩

/-- C7: the driver handles selected streams sequentially; on each stream
it marks it currently syncing, resolves the per-stream state from the
marked state, emits the schema, looks up the fetch method, calls it with
the catch-up window, the schemaless flag and the resolved state, and runs
the row loop, which handles each row with `sync_record` before moving to
the next; the next stream starts only from the resulting state and clock. -/
theorem sync_stream_pipeline (paypal : PayPal) (streams : StreamRegistry)
    (start_date : String) (catchup_days : Int) (schemaless : Bool)
    (c : CatalogEntry) (rest : List CatalogEntry) (st : TapState) (clk : Nat)
    (f : Int → Bool → List (String × Value) → List Value)
    (hf : alookup c.tap_stream_id paypal.methods = some f) :
    syncStreams paypal streams start_date catchup_days schemaless
        (c :: rest) st clk =
      (let st1 := set_currently_syncing st c.tap_stream_id
       let stream_state := get_stream_state st1 start_date c.tap_stream_id
       let rows := f catchup_days schemaless stream_state
       let r := syncRows streams c rows st1 clk
       match r.error with
       | some e =>
         ⟨r.state,
          OutputEvent.schema c.tap_stream_id c.schema c.key_properties ::
            r.events, some e, r.clock⟩
       | none =>
         let k := syncStreams paypal streams start_date catchup_days
           schemaless rest r.state r.clock
         ⟨k.state,
          OutputEvent.schema c.tap_stream_id c.schema c.key_properties ::
            r.events ++ k.events, k.error, k.clock⟩) ∧
    (∀ (row : Value) (rows2 : List Value) (st2 : TapState) (clk2 : Nat),
      (sync_record streams c row clk2 st2).error = none →
      syncRows streams c (row :: rows2) st2 clk2 =
        ⟨(syncRows streams c rows2
            (sync_record streams c row clk2 st2).state (clk2 + 1)).state,
         (sync_record streams c row clk2 st2).events ++
           (syncRows streams c rows2
             (sync_record streams c row clk2 st2).state (clk2 + 1)).events,
         (syncRows streams c rows2
           (sync_record streams c row clk2 st2).state (clk2 + 1)).error,
         (syncRows streams c rows2
           (sync_record streams c row clk2 st2).state (clk2 + 1)).clock⟩) := by
  constructor
  · simp only [syncStreams]
    rw [hf]
  · intro row rows2 st2 clk2 herr
    exact syncRows_cons_of_ok streams c row rows2 st2 clk2 herr

/-- Instance of `sync_stream_pipeline` at the scenario client and its
single selected stream. -/
theorem sync_stream_pipeline_witness :
    alookup txStream.tap_stream_id txClient.methods = some txMethod ∧
    syncStreams txClient STREAMS "2020-01-01T00:00:00Z" 0 false
        [txStream] emptyState 0 =
      (let st1 := set_currently_syncing emptyState txStream.tap_stream_id
       let stream_state := get_stream_state st1 "2020-01-01T00:00:00Z"
         txStream.tap_stream_id
       let rows := txMethod 0 false stream_state
       let r := syncRows STREAMS txStream rows st1 0
       match r.error with
       | some e =>
         ⟨r.state,
          OutputEvent.schema txStream.tap_stream_id txStream.schema
            txStream.key_properties :: r.events, some e, r.clock⟩
       | none =>
         let k := syncStreams txClient STREAMS "2020-01-01T00:00:00Z" 0 false
           [] r.state r.clock
         ⟨k.state,
          OutputEvent.schema txStream.tap_stream_id txStream.schema
            txStream.key_properties :: r.events ++ k.events, k.error,
          k.clock⟩) :=
  ⟨rfl,
   (sync_stream_pipeline txClient STREAMS "2020-01-01T00:00:00Z" 0 false
      txStream [] emptyState 0 txMethod rfl).1⟩

/-- The row-loop run of one stream: rows fetched by method `f` with the
resolved per-stream state, starting from the state in which the stream
was just marked currently-syncing. -/
def streamRun (streams : StreamRegistry) (start_date : String)
    (catchup_days : Int) (schemaless : Bool) (c : CatalogEntry)
    (f : Int → Bool → List (String × Value) → List Value)
    (st : TapState) (clk : Nat) : SyncResult :=
  syncRows streams c
    (f catchup_days schemaless
      (get_stream_state (set_currently_syncing st c.tap_stream_id)
        start_date c.tap_stream_id))
    (set_currently_syncing st c.tap_stream_id) clk

/-- Unfolding of `syncStreams` on a stream without a fetch method. -/
theorem syncStreams_cons_noMethod (paypal : PayPal)
    (streams : StreamRegistry) (start_date : String) (catchup_days : Int)
    (schemaless : Bool) (c : CatalogEntry) (rest : List CatalogEntry)
    (st : TapState) (clk : Nat)
    (hf : alookup c.tap_stream_id paypal.methods = none) :
    syncStreams paypal streams start_date catchup_days schemaless
        (c :: rest) st clk =
      ⟨set_currently_syncing st c.tap_stream_id,
       [OutputEvent.schema c.tap_stream_id c.schema c.key_properties],
       some (.attributeError c.tap_stream_id), clk⟩ := by
  simp only [syncStreams]
  rw [hf]

/-- Unfolding of `syncStreams` on a stream with a fetch method. -/
theorem syncStreams_cons_method (paypal : PayPal)
    (streams : StreamRegistry) (start_date : String) (catchup_days : Int)
    (schemaless : Bool) (c : CatalogEntry) (rest : List CatalogEntry)
    (st : TapState) (clk : Nat)
    (f : Int → Bool → List (String × Value) → List Value)
    (hf : alookup c.tap_stream_id paypal.methods = some f) :
    syncStreams paypal streams start_date catchup_days schemaless
        (c :: rest) st clk =
      match (streamRun streams start_date catchup_days schemaless c f st
          clk).error with
      | some e =>
        ⟨(streamRun streams start_date catchup_days schemaless c f st
            clk).state,
         OutputEvent.schema c.tap_stream_id c.schema c.key_properties ::
           (streamRun streams start_date catchup_days schemaless c f st
             clk).events,
         some e,
         (streamRun streams start_date catchup_days schemaless c f st
           clk).clock⟩
      | none =>
        ⟨(syncStreams paypal streams start_date catchup_days schemaless rest
            (streamRun streams start_date catchup_days schemaless c f st
              clk).state
            (streamRun streams start_date catchup_days schemaless c f st
              clk).clock).state,
         OutputEvent.schema c.tap_stream_id c.schema c.key_properties ::
           (streamRun streams start_date catchup_days schemaless c f st
             clk).events ++
           (syncStreams paypal streams start_date catchup_days schemaless
             rest
             (streamRun streams start_date catchup_days schemaless c f st
               clk).state
             (streamRun streams start_date catchup_days schemaless c f st
               clk).clock).events,
         (syncStreams paypal streams start_date catchup_days schemaless rest
           (streamRun streams start_date catchup_days schemaless c f st
             clk).state
           (streamRun streams start_date catchup_days schemaless c f st
             clk).clock).error,
         (syncStreams paypal streams start_date catchup_days schemaless rest
           (streamRun streams start_date catchup_days schemaless c f st
             clk).state
           (streamRun streams start_date catchup_days schemaless c f st
             clk).clock).clock⟩ := by
  simp only [syncStreams, streamRun]
  rw [hf]

/-- Unfolding of `syncStreams` on a stream whose row loop raises. -/
theorem syncStreams_cons_err (paypal : PayPal) (streams : StreamRegistry)
    (start_date : String) (catchup_days : Int) (schemaless : Bool)
    (c : CatalogEntry) (rest : List CatalogEntry) (st : TapState)
    (clk : Nat) (f : Int → Bool → List (String × Value) → List Value)
    (err : SyncError)
    (hf : alookup c.tap_stream_id paypal.methods = some f)
    (herr : (streamRun streams start_date catchup_days schemaless c f st
        clk).error = some err) :
    syncStreams paypal streams start_date catchup_days schemaless
        (c :: rest) st clk =
      ⟨(streamRun streams start_date catchup_days schemaless c f st
          clk).state,
       OutputEvent.schema c.tap_stream_id c.schema c.key_properties ::
         (streamRun streams start_date catchup_days schemaless c f st
           clk).events,
       some err,
       (streamRun streams start_date catchup_days schemaless c f st
         clk).clock⟩ := by
  rw [syncStreams_cons_method paypal streams start_date catchup_days
    schemaless c rest st clk f hf, herr]

/-- Unfolding of `syncStreams` on a stream whose row loop raises nothing. -/
theorem syncStreams_cons_ok (paypal : PayPal) (streams : StreamRegistry)
    (start_date : String) (catchup_days : Int) (schemaless : Bool)
    (c : CatalogEntry) (rest : List CatalogEntry) (st : TapState)
    (clk : Nat) (f : Int → Bool → List (String × Value) → List Value)
    (hf : alookup c.tap_stream_id paypal.methods = some f)
    (herr : (streamRun streams start_date catchup_days schemaless c f st
        clk).error = none) :
    syncStreams paypal streams start_date catchup_days schemaless
        (c :: rest) st clk =
      ⟨(syncStreams paypal streams start_date catchup_days schemaless rest
          (streamRun streams start_date catchup_days schemaless c f st
            clk).state
          (streamRun streams start_date catchup_days schemaless c f st
            clk).clock).state,
       OutputEvent.schema c.tap_stream_id c.schema c.key_properties ::
         (streamRun streams start_date catchup_days schemaless c f st
           clk).events ++
         (syncStreams paypal streams start_date catchup_days schemaless rest
           (streamRun streams start_date catchup_days schemaless c f st
             clk).state
           (streamRun streams start_date catchup_days schemaless c f st
             clk).clock).events,
       (syncStreams paypal streams start_date catchup_days schemaless rest
         (streamRun streams start_date catchup_days schemaless c f st
           clk).state
         (streamRun streams start_date catchup_days schemaless c f st
           clk).clock).error,
       (syncStreams paypal streams start_date catchup_days schemaless rest
         (streamRun streams start_date catchup_days schemaless c f st
           clk).state
         (streamRun streams start_date catchup_days schemaless c f st
           clk).clock).clock⟩ := by
  rw [syncStreams_cons_method paypal streams start_date catchup_days
    schemaless c rest st clk f hf, herr]

/-- An event that is not a schema emission is not the schema emission of
any stream. -/
theorem isSchemaOf_of_not_schema (S : String) (e : OutputEvent)
    (h : isSchemaEv e = false) : isSchemaOf S e = false := by
  cases e with
  | schema a b c => exact absurd h (by simp [isSchemaEv])
  | record a b c => rfl
  | bookmark a b c => rfl
  | state_flush a => rfl

/-- Events emitted by `sync_record` are never schema emissions, and any
record emission among them is for the handled stream. -/
theorem sync_record_events_shape (streams : StreamRegistry)
    (c : CatalogEntry) (row : Value) (clk : Nat) (st : TapState)
    (S : String) :
    ∀ e ∈ (sync_record streams c row clk st).events,
      isSchemaEv e = false ∧
      (isRecordOf S e = true → c.tap_stream_id = S) := by
  intro e he
  cases hb : retrieve_bookmark_with_path c.replication_key row with
  | none =>
    simp only [sync_record, hb, List.mem_singleton] at he
    subst he
    refine ⟨rfl, ?_⟩
    intro h
    simp only [isRecordOf, beq_iff_eq] at h
    exact h
  | some v =>
    cases hpt : pyTruthy v with
    | false =>
      simp [sync_record, hb, hpt] at he
      subst he
      refine ⟨rfl, ?_⟩
      intro h
      simp only [isRecordOf, beq_iff_eq] at h
      exact h
    | true =>
      cases hreg : alookup c.tap_stream_id streams with
      | none =>
        simp [sync_record, hb, hpt, hreg] at he
        subst he
        refine ⟨rfl, ?_⟩
        intro h
        simp only [isRecordOf, beq_iff_eq] at h
        exact h
      | some meta =>
        simp [sync_record, hb, hpt, hreg] at he
        rcases he with rfl | rfl | rfl
        · refine ⟨rfl, ?_⟩
          intro h
          simp only [isRecordOf, beq_iff_eq] at h
          exact h
        · refine ⟨rfl, ?_⟩
          intro h
          simp [isRecordOf] at h
        · refine ⟨rfl, ?_⟩
          intro h
          simp [isRecordOf] at h

/-- Events emitted by the row loop are never schema emissions, and any
record emission among them is for the iterated stream. -/
theorem syncRows_events_shape (streams : StreamRegistry)
    (c : CatalogEntry) (S : String) :
    ∀ (rows : List Value) (st : TapState) (clk : Nat),
      ∀ e ∈ (syncRows streams c rows st clk).events,
        isSchemaEv e = false ∧
        (isRecordOf S e = true → c.tap_stream_id = S) := by
  intro rows
  induction rows with
  | nil =>
    intro st clk e he
    simp [syncRows] at he
  | cons row rest ih =>
    intro st clk e he
    simp only [syncRows] at he
    cases herr : (sync_record streams c row clk st).error with
    | some err =>
      rw [herr] at he
      exact sync_record_events_shape streams c row clk st S e he
    | none =>
      rw [herr] at he
      rcases List.mem_append.mp he with h | h
      · exact sync_record_events_shape streams c row clk st S e h
      · exact ih (sync_record streams c row clk st).state (clk + 1) e h

/-- An event that is neither a schema emission nor a record of stream `S`,
given the shape facts for a stream with a different identifier. -/
theorem shape_implies_not_mentioned (S cid : String) (e : OutputEvent)
    (h1 : isSchemaEv e = false) (h2 : isRecordOf S e = true → cid = S)
    (hne : cid ≠ S) :
    isSchemaOf S e = false ∧ isRecordOf S e = false := by
  refine ⟨isSchemaOf_of_not_schema S e h1, ?_⟩
  cases hio : isRecordOf S e with
  | false => rfl
  | true => exact absurd (h2 hio) hne

/-- A run over streams whose identifiers never equal `S` emits no schema
and no record of `S`. -/
theorem syncStreams_events_not_mentioned (paypal : PayPal)
    (streams : StreamRegistry) (start_date : String) (catchup_days : Int)
    (schemaless : Bool) (S : String) :
    ∀ (cs : List CatalogEntry) (st : TapState) (clk : Nat),
      S ∉ cs.map CatalogEntry.tap_stream_id →
      ∀ e ∈ (syncStreams paypal streams start_date catchup_days schemaless
          cs st clk).events,
        isSchemaOf S e = false ∧ isRecordOf S e = false := by
  intro cs
  induction cs with
  | nil =>
    intro st clk _ e he
    simp [syncStreams] at he
  | cons c rest ih =>
    intro st clk hS e he
    simp only [List.map_cons, List.mem_cons, not_or] at hS
    obtain ⟨hS1, hS2⟩ := hS
    have hne : c.tap_stream_id ≠ S := fun h => hS1 h.symm
    cases hf : alookup c.tap_stream_id paypal.methods with
    | none =>
      rw [syncStreams_cons_noMethod paypal streams start_date catchup_days
        schemaless c rest st clk hf] at he
      have he2 : e = OutputEvent.schema c.tap_stream_id c.schema
          c.key_properties := by
        simpa using he
      subst he2
      exact ⟨by simp [isSchemaOf, hne], rfl⟩
    | some f =>
      cases herr : (streamRun streams start_date catchup_days schemaless c f
          st clk).error with
      | some err =>
        rw [syncStreams_cons_err paypal streams start_date catchup_days
          schemaless c rest st clk f err hf herr] at he
        rcases List.mem_cons.mp he with rfl | h2
        · exact ⟨by simp [isSchemaOf, hne], rfl⟩
        · have hsh := syncRows_events_shape streams c S
            (f catchup_days schemaless
              (get_stream_state (set_currently_syncing st c.tap_stream_id)
                start_date c.tap_stream_id))
            (set_currently_syncing st c.tap_stream_id) clk e h2
          exact shape_implies_not_mentioned S c.tap_stream_id e hsh.1 hsh.2
            hne
      | none =>
        rw [syncStreams_cons_ok paypal streams start_date catchup_days
          schemaless c rest st clk f hf herr] at he
        rcases List.mem_cons.mp he with rfl | h2
        · exact ⟨by simp [isSchemaOf, hne], rfl⟩
        · rcases List.mem_append.mp h2 with h3 | h3
          · have hsh := syncRows_events_shape streams c S
              (f catchup_days schemaless
                (get_stream_state (set_currently_syncing st c.tap_stream_id)
                  start_date c.tap_stream_id))
              (set_currently_syncing st c.tap_stream_id) clk e h3
            exact shape_implies_not_mentioned S c.tap_stream_id e hsh.1
              hsh.2 hne
          · exact ih (streamRun streams start_date catchup_days schemaless c
              f st clk).state
              (streamRun streams start_date catchup_days schemaless c f st
                clk).clock hS2 e h3

/-- In a completed run over streams with pairwise distinct identifiers,
each processed stream's schema appears exactly once in the trace, before
every record of that stream. -/
theorem syncStreams_schema_once (paypal : PayPal)
    (streams : StreamRegistry) (start_date : String) (catchup_days : Int)
    (schemaless : Bool) :
    ∀ (cs : List CatalogEntry) (c : CatalogEntry) (st : TapState)
      (clk : Nat),
      c ∈ cs →
      (cs.map CatalogEntry.tap_stream_id).Nodup →
      (syncStreams paypal streams start_date catchup_days schemaless cs st
        clk).error = none →
      ∃ pre post,
        (syncStreams paypal streams start_date catchup_days schemaless cs
          st clk).events =
          pre ++ OutputEvent.schema c.tap_stream_id c.schema
            c.key_properties :: post ∧
        (∀ e ∈ pre, isSchemaOf c.tap_stream_id e = false ∧
          isRecordOf c.tap_stream_id e = false) ∧
        (∀ e ∈ post, isSchemaOf c.tap_stream_id e = false) := by
  intro cs
  induction cs with
  | nil =>
    intro c st clk hmem
    exact absurd hmem (List.not_mem_nil c)
  | cons c0 rest ih =>
    intro c st clk hmem hnd hok
    simp only [List.map_cons, List.nodup_cons] at hnd
    obtain ⟨hn1, hn2⟩ := hnd
    cases hf : alookup c0.tap_stream_id paypal.methods with
    | none =>
      rw [syncStreams_cons_noMethod paypal streams start_date catchup_days
        schemaless c0 rest st clk hf] at hok
      simp at hok
    | some f =>
      cases herr : (streamRun streams start_date catchup_days schemaless c0
          f st clk).error with
      | some err =>
        rw [syncStreams_cons_err paypal streams start_date catchup_days
          schemaless c0 rest st clk f err hf herr] at hok
        simp at hok
      | none =>
        rw [syncStreams_cons_ok paypal streams start_date catchup_days
          schemaless c0 rest st clk f hf herr] at hok ⊢
        have hkerr : (syncStreams paypal streams start_date catchup_days
            schemaless rest
            (streamRun streams start_date catchup_days schemaless c0 f st
              clk).state
            (streamRun streams start_date catchup_days schemaless c0 f st
              clk).clock).error = none := hok
        obtain hceq | hcrest := List.mem_cons.mp hmem
        · rw [hceq]
          refine ⟨[],
            (streamRun streams start_date catchup_days schemaless c0 f st
              clk).events ++
            (syncStreams paypal streams start_date catchup_days schemaless
              rest
              (streamRun streams start_date catchup_days schemaless c0 f st
                clk).state
              (streamRun streams start_date catchup_days schemaless c0 f st
                clk).clock).events, rfl, ?_, ?_⟩
          · intro e he
            exact absurd he (List.not_mem_nil e)
          · intro e he
            rcases List.mem_append.mp he with h | h
            · have hsh := syncRows_events_shape streams c0 c0.tap_stream_id
                (f catchup_days schemaless
                  (get_stream_state
                    (set_currently_syncing st c0.tap_stream_id) start_date
                    c0.tap_stream_id))
                (set_currently_syncing st c0.tap_stream_id) clk e h
              exact isSchemaOf_of_not_schema c0.tap_stream_id e hsh.1
            · exact (syncStreams_events_not_mentioned paypal streams
                start_date catchup_days schemaless c0.tap_stream_id rest
                (streamRun streams start_date catchup_days schemaless c0 f
                  st clk).state
                (streamRun streams start_date catchup_days schemaless c0 f
                  st clk).clock hn1 e h).1
        · have hneq : c0.tap_stream_id ≠ c.tap_stream_id := by
            intro h
            exact hn1 (by
              rw [h]
              exact List.mem_map_of_mem CatalogEntry.tap_stream_id hcrest)
          obtain ⟨pre, post, hev, hpre, hpost⟩ := ih c
            (streamRun streams start_date catchup_days schemaless c0 f st
              clk).state
            (streamRun streams start_date catchup_days schemaless c0 f st
              clk).clock hcrest hn2 hkerr
          refine ⟨OutputEvent.schema c0.tap_stream_id c0.schema
              c0.key_properties ::
              (streamRun streams start_date catchup_days schemaless c0 f st
                clk).events ++ pre, post, ?_, ?_, hpost⟩
          · show OutputEvent.schema c0.tap_stream_id c0.schema
                c0.key_properties ::
                (streamRun streams start_date catchup_days schemaless c0 f
                  st clk).events ++
                (syncStreams paypal streams start_date catchup_days
                  schemaless rest
                  (streamRun streams start_date catchup_days schemaless c0
                    f st clk).state
                  (streamRun streams start_date catchup_days schemaless c0
                    f st clk).clock).events = _
            rw [hev]
            simp [List.append_assoc]
          · intro e he
            rcases List.mem_cons.mp he with rfl | h2
            · exact ⟨by simp [isSchemaOf, hneq], rfl⟩
            · rcases List.mem_append.mp h2 with h3 | h3
              · have hsh := syncRows_events_shape streams c0
                  c.tap_stream_id
                  (f catchup_days schemaless
                    (get_stream_state
                      (set_currently_syncing st c0.tap_stream_id)
                      start_date c0.tap_stream_id))
                  (set_currently_syncing st c0.tap_stream_id) clk e h3
                exact shape_implies_not_mentioned c.tap_stream_id
                  c0.tap_stream_id e hsh.1 hsh.2 hneq
              · exact hpre e h3

/-- C6: in a run of `sync` that completes without an uncaught exception,
over a catalog whose selected streams have pairwise distinct identifiers,
each selected stream's schema is emitted exactly once, and that emission
happens before any record of the stream. -/
theorem schema_emitted_once_before_records (paypal : PayPal)
    (streams : StreamRegistry) (catalog : Catalog) (start_date : String)
    (catchup_days : Int) (schemaless : Bool) (state : TapState) (clk : Nat)
    (c : CatalogEntry)
    (hsel : c ∈ catalog.get_selected_streams state)
    (hnd : ((catalog.get_selected_streams state).map
      CatalogEntry.tap_stream_id).Nodup)
    (hok : (sync paypal state catalog start_date catchup_days schemaless
      streams clk).error = none) :
    ∃ pre post,
      (sync paypal state catalog start_date catchup_days schemaless streams
        clk).events =
        pre ++ OutputEvent.schema c.tap_stream_id c.schema
          c.key_properties :: post ∧
      (∀ e ∈ pre, isSchemaOf c.tap_stream_id e = false ∧
        isRecordOf c.tap_stream_id e = false) ∧
      (∀ e ∈ post, isSchemaOf c.tap_stream_id e = false) :=
  syncStreams_schema_once paypal streams start_date catchup_days schemaless
    (catalog.get_selected_streams state) c state clk hsel hnd hok

/-- The catalog of the spec scenario, selecting only
`paypal_transactions`. -/
def txCatalog : Catalog := ⟨[txStream]⟩

/-- Instance of `schema_emitted_once_before_records` at the spec
scenario's catalog, client and registry. -/
theorem schema_emitted_once_before_records_witness :
    txStream ∈ txCatalog.get_selected_streams emptyState ∧
    ((txCatalog.get_selected_streams emptyState).map
      CatalogEntry.tap_stream_id).Nodup ∧
    (sync txClient emptyState txCatalog "2020-01-01T00:00:00Z" 0 false
      STREAMS 0).error = none ∧
    ∃ pre post,
      (sync txClient emptyState txCatalog "2020-01-01T00:00:00Z" 0 false
        STREAMS 0).events =
        pre ++ OutputEvent.schema txStream.tap_stream_id txStream.schema
          txStream.key_properties :: post ∧
      (∀ e ∈ pre, isSchemaOf txStream.tap_stream_id e = false ∧
        isRecordOf txStream.tap_stream_id e = false) ∧
      (∀ e ∈ post, isSchemaOf txStream.tap_stream_id e = false) := by
  have hsel : txStream ∈ txCatalog.get_selected_streams emptyState := by
    show txStream ∈ [txStream]
    exact List.mem_singleton.mpr rfl
  have hnd : ((txCatalog.get_selected_streams emptyState).map
      CatalogEntry.tap_stream_id).Nodup := by
    show List.Nodup ["paypal_transactions"]
    exact List.nodup_singleton _
  have hok : (sync txClient emptyState txCatalog "2020-01-01T00:00:00Z" 0
      false STREAMS 0).error = none := rfl
  exact ⟨hsel, hnd, hok,
    schema_emitted_once_before_records txClient STREAMS txCatalog
      "2020-01-01T00:00:00Z" 0 false emptyState 0 txStream hsel hnd hok⟩
